import Mathlib

/-!
Shallow embedding of the core of `MTSP_2.1.0.py` (ShellMusicPlayer):
the playback-session controller and the library catalog.

Playback controller (`play`, `pause`, `resume`, `stop`, `next_track`,
`previous_track`, `shuffle_playlist`) is modelled as pure state
transformers over `PlayerState`.  Environmental nondeterminism is made
explicit as parameters:
* spawning the external player (`subprocess.Popen`) either succeeds,
  yielding a fresh process id, or raises — modelled by an
  `Option Nat` argument (`some pid` / `none`);
* terminating the old process inside `stop` may raise (the code swallows
  the exception) — modelled by a `Bool` argument that the definition,
  like the code, ignores in its result;
* `random.shuffle` produces some permutation of the list — modelled by
  passing the resulting list, with theorems hypothesising that it is a
  permutation of the input.

The catalog (sqlite tables `tracks`, `playlists`, `playlist_tracks`) is
modelled as lists of rows in insertion (rowid) order; the filesystem
walk of `scan_music_library` is modelled as the list of files the walk
yields (unreadable subdirectories simply contribute no files), each file
carrying the outcome of the `mutagen` metadata read.
-/

/-- A track tuple as produced by `get_tracks` and consumed by `play`:
`(id, path, filename, artist, album)`; `play` uses `track[1]` (the path)
as the argument to `mpv`. -/
structure Track where
  id : Nat
  path : String
  filename : String
  artist : String
  album : String
  deriving DecidableEq

/-- The playback state of `ShellMusicPlayer` as set up in `__init__`:
`current_playlist`, `current_track_index`, `is_playing`, `is_paused`,
`player_process`.  A live process is `some (pid, path)` where `path` is
the file the spawned `mpv` was pointed at. -/
structure PlayerState where
  current_playlist : List Track
  current_track_index : Nat
  is_playing : Bool
  is_paused : Bool
  player_process : Option (Nat × String)
  deriving DecidableEq

/-- Initial controller state from `__init__`. -/
def initState : PlayerState :=
  { current_playlist := []
    current_track_index := 0
    is_playing := false
    is_paused := false
    player_process := none }

/-- Observable outcome of a `play` call (the code reports these by
printing; `indexError` is the uncaught `IndexError` raised by
`self.current_playlist[self.current_track_index]` when the cursor is out
of range). -/
inductive PlayResult where
  | emptyQueue
  | nowPlaying
  | spawnError
  | indexError
  deriving DecidableEq

/-- `ShellMusicPlayer.stop`: only acts when a process handle is present;
`terminate`/`wait` may raise but the exception is swallowed (`termFails`
does not influence the result), then the handle and both flags are
cleared. -/
def stop (termFails : Bool) (s : PlayerState) : PlayerState :=
  match s.player_process with
  | none => s
  | some _ =>
      { s with player_process := none, is_playing := false, is_paused := false }

/-- `ShellMusicPlayer.play(tracks=None)`.  `if tracks:` is Python
truthiness: the queue is replaced (and the cursor reset to 0) only when
`tracks` is both supplied and non-empty.  Then: empty queue reports and
returns; otherwise `stop()` runs, the track at the cursor is read
(raising `IndexError` if out of range), and `mpv` is spawned on its
path (`spawnPid = none` models `Popen` raising, which is caught and
reported). -/
def play (tracks : Option (List Track)) (spawnPid : Option Nat)
    (termFails : Bool) (s : PlayerState) : PlayerState × PlayResult :=
  let s1 :=
    match tracks with
    | some ts =>
        if ts.isEmpty then s
        else { s with current_playlist := ts, current_track_index := 0 }
    | none => s
  if s1.current_playlist.isEmpty then (s1, .emptyQueue)
  else
    let s2 := stop termFails s1
    match s2.current_playlist.get? s2.current_track_index with
    | none => (s2, .indexError)
    | some t =>
        match spawnPid with
        | some pid =>
            ({ s2 with player_process := some (pid, t.path), is_playing := true },
             .nowPlaying)
        | none => (s2, .spawnError)

/-- `ShellMusicPlayer.pause`: guarded by `if self.player_process:`; sends
SIGSTOP and sets `is_paused`. -/
def pause (s : PlayerState) : PlayerState :=
  match s.player_process with
  | none => s
  | some _ => { s with is_paused := true }

/-- `ShellMusicPlayer.resume`: guarded by
`if self.player_process and self.is_paused:`; sends SIGCONT and clears
`is_paused`. -/
def resume (s : PlayerState) : PlayerState :=
  match s.player_process with
  | none => s
  | some _ => if s.is_paused then { s with is_paused := false } else s

/-- `ShellMusicPlayer.next_track`: no-op on an empty playlist, else
advances the cursor by 1 modulo the playlist length and calls `play()`
with no argument. -/
def next_track (spawnPid : Option Nat) (termFails : Bool)
    (s : PlayerState) : PlayerState :=
  if s.current_playlist.isEmpty then s
  else
    let s1 := { s with current_track_index :=
      (s.current_track_index + 1) % s.current_playlist.length }
    (play none spawnPid termFails s1).1

/-- `ShellMusicPlayer.previous_track`: no-op on an empty playlist, else
sets the cursor to `(index - 1) % len` and calls `play()`.  Python's `%`
on a negative left operand returns the representative in `[0, len)`,
which is `Int.emod`; the result is cast back to `Nat`. -/
def previous_track (spawnPid : Option Nat) (termFails : Bool)
    (s : PlayerState) : PlayerState :=
  if s.current_playlist.isEmpty then s
  else
    let s1 := { s with current_track_index :=
      (((s.current_track_index : Int) - 1) % (s.current_playlist.length : Int)).toNat }
    (play none spawnPid termFails s1).1

/-- `ShellMusicPlayer.shuffle_playlist`: guarded by
`if self.current_playlist:`; `random.shuffle` permutes the list in
place.  The permutation the RNG produced is passed in as `shuffled`. -/
def shuffle_playlist (shuffled : List Track) (s : PlayerState) : PlayerState :=
  if s.current_playlist.isEmpty then s
  else { s with current_playlist := shuffled }

/-- One controller operation, with its environmental nondeterminism
(spawn outcome, termination-failure flag, shuffle outcome) recorded in
the constructor. -/
inductive Op where
  | playOp (tracks : Option (List Track)) (spawnPid : Option Nat) (termFails : Bool)
  | pauseOp
  | resumeOp
  | stopOp (termFails : Bool)
  | nextOp (spawnPid : Option Nat) (termFails : Bool)
  | prevOp (spawnPid : Option Nat) (termFails : Bool)
  | shuffleOp (shuffled : List Track)

/-- Apply one operation to the controller state. -/
def applyOp (s : PlayerState) : Op → PlayerState
  | .playOp tracks spawnPid termFails => (play tracks spawnPid termFails s).1
  | .pauseOp => pause s
  | .resumeOp => resume s
  | .stopOp termFails => stop termFails s
  | .nextOp spawnPid termFails => next_track spawnPid termFails s
  | .prevOp spawnPid termFails => previous_track spawnPid termFails s
  | .shuffleOp shuffled => shuffle_playlist shuffled s

/-- Run a sequence of controller operations. -/
def run (s : PlayerState) (ops : List Op) : PlayerState :=
  ops.foldl applyOp s

/-- A row of the sqlite `tracks` table:
`(id INTEGER PRIMARY KEY, path TEXT UNIQUE, filename, artist, album, duration)`. -/
structure TrackRow where
  id : Nat
  path : String
  filename : String
  artist : String
  album : String
  duration : Nat
  deriving DecidableEq

/-- Outcome of `mutagen.File(full_path, easy=True)` on one file:
`ok` is a successful parse with the optional `artist`/`album`/`length`
tags it exposes; `failure` is any raised exception (unreadable file,
unparseable contents, or a `None` return making `.get` raise). -/
inductive MetaResult where
  | ok (artist : Option String) (album : Option String) (length : Option Nat)
  | failure
  deriving DecidableEq

/-- One file yielded by the `os.walk` over the music directory: its full
path (`os.path.join(root, file)`), its bare name `file` (the extension
check runs on this), and its metadata-read outcome. -/
structure FsFile where
  path : String
  name : String
  meta : MetaResult
  deriving DecidableEq

/-- The catalog database: the three tables in rowid (insertion) order,
plus the next rowid sqlite would assign to each of the two
PRIMARY KEY tables (rowids start at 1). -/
structure Catalog where
  tracks : List TrackRow
  nextTrackId : Nat
  playlists : List (Nat × String)
  nextPlaylistId : Nat
  playlist_tracks : List (Nat × Nat)
  deriving DecidableEq

/-- A freshly created database (`_create_database` on a new file). -/
def emptyCatalog : Catalog :=
  { tracks := []
    nextTrackId := 1
    playlists := []
    nextPlaylistId := 1
    playlist_tracks := [] }

/-- The recognized audio extensions of `scan_music_library`. -/
def supported_formats : List String :=
  [".mp3", ".wav", ".flac", ".ogg", ".m4a"]

/-- `str.lower()` as a character list: ASCII-relevant case folding,
character by character. -/
def lowerChars (s : String) : List Char :=
  s.toList.map Char.toLower

/-- `file.lower().endswith(supported_formats)`: the lowered filename
ends with one of the recognized extensions (which are already
lowercase). -/
def hasSupportedExt (name : String) : Bool :=
  supported_formats.any (fun ext => decide (List.IsSuffix ext.toList (lowerChars name)))

/-- The metadata-extraction block of `scan_music_library`: on success,
`metadata.get('artist', ['Unknown Artist'])[0]`,
`metadata.get('album', ['Unknown Album'])[0]`,
`metadata.get('length', 0)`; on any exception the defaults
`('Unknown Artist', 'Unknown Album', 0)`. -/
def extractMeta : MetaResult → String × String × Nat
  | .ok artist album length =>
      (artist.getD "Unknown Artist", album.getD "Unknown Album", length.getD 0)
  | .failure => ("Unknown Artist", "Unknown Album", 0)

/-- The body of `scan_music_library`'s loop for one file, threading the
catalog and the `tracks_added` counter: skip non-audio extensions; skip
paths already present (`SELECT id FROM tracks WHERE path = ?` sees the
connection's own uncommitted inserts); otherwise extract metadata and
`INSERT INTO tracks`. -/
def scanStep (acc : Catalog × Nat) (f : FsFile) : Catalog × Nat :=
  let (cat, added) := acc
  if hasSupportedExt f.name then
    if cat.tracks.any (fun t => t.path == f.path) then (cat, added)
    else
      let (artist, album, duration) := extractMeta f.meta
      ({ cat with
          tracks := cat.tracks ++
            [{ id := cat.nextTrackId, path := f.path, filename := f.name
               artist := artist, album := album, duration := duration }]
          nextTrackId := cat.nextTrackId + 1 },
       added + 1)
  else (cat, added)

/-- `ShellMusicPlayer.scan_music_library` over the files the walk
yields, returning the updated catalog and `tracks_added`. -/
def scan_music_library (files : List FsFile) (cat : Catalog) : Catalog × Nat :=
  files.foldl scanStep (cat, 0)

/-- Case-insensitive substring match, modelling sqlite
`column LIKE '%term%'` (case-insensitive for ASCII). -/
def likeContains (term field : String) : Bool :=
  decide (List.IsInfix (lowerChars term) (lowerChars field))

/-- `ShellMusicPlayer.get_tracks(limit=50, offset=0, search=None)`:
`SELECT id, path, filename, artist, album FROM tracks`, with an optional
`LIKE` filter over filename/artist/album (`if search:` is Python
truthiness, so `None` and `""` both mean no filter), then
`LIMIT ? OFFSET ?`. -/
def get_tracks (limit offset : Nat) (search : Option String)
    (cat : Catalog) : List (Nat × String × String × String × String) :=
  let rows :=
    match search with
    | some s =>
        if s.isEmpty then cat.tracks
        else cat.tracks.filter (fun t =>
          likeContains s t.filename || likeContains s t.artist ||
            likeContains s t.album)
    | none => cat.tracks
  ((rows.drop offset).take limit).map
    (fun t => (t.id, t.path, t.filename, t.artist, t.album))

/-- Outcome of `create_playlist`: `ok` with the new playlist id
(`cursor.lastrowid`), or the `sqlite3.IntegrityError` raised by the
UNIQUE constraint on `playlists.name`. -/
inductive CreatePlaylistResult where
  | ok (playlistId : Nat)
  | integrityError
  deriving DecidableEq

/-- `ShellMusicPlayer.create_playlist(name, tracks)`: inserts the
playlist row (the UNIQUE constraint on `name` makes a duplicate raise,
leaving the database unchanged), then inserts one `playlist_tracks` row
per given track id.  The schema declares
`FOREIGN KEY(track_id) REFERENCES tracks(id)` but the connection never
enables `PRAGMA foreign_keys`, so sqlite does not enforce it: unknown
track ids are inserted without error. -/
def create_playlist (name : String) (trackIds : List Nat)
    (cat : Catalog) : Catalog × CreatePlaylistResult :=
  if cat.playlists.any (fun p => p.2 == name) then (cat, .integrityError)
  else
    let pid := cat.nextPlaylistId
    ({ cat with
        playlists := cat.playlists ++ [(pid, name)]
        nextPlaylistId := pid + 1
        playlist_tracks := cat.playlist_tracks ++ trackIds.map (fun tid => (pid, tid)) },
     .ok pid)

/-- `ShellMusicPlayer.list_playlists`: `SELECT id, name FROM playlists`. -/
def list_playlists (cat : Catalog) : List (Nat × String) :=
  cat.playlists

/-- The path of every track row, in rowid order. -/
def catPaths (cat : Catalog) : List String :=
  cat.tracks.map (fun t => t.path)

/-- Concrete track tuples used to instantiate the theorems. -/
def trackA : Track :=
  { id := 1, path := "/m/a.mp3", filename := "a.mp3", artist := "AA", album := "LA" }

def trackB : Track :=
  { id := 2, path := "/m/b.ogg", filename := "b.ogg", artist := "AB", album := "LB" }

def trackC : Track :=
  { id := 3, path := "/m/c.wav", filename := "c.wav", artist := "AC", album := "LC" }

/-- Three readable audio files. -/
def fileA : FsFile :=
  { path := "/m/a.mp3", name := "a.mp3", meta := .ok (some "AA") (some "LA") (some 200) }

def fileB : FsFile :=
  { path := "/m/b.ogg", name := "b.ogg", meta := .ok (some "AB") (some "LB") (some 150) }

def fileC : FsFile :=
  { path := "/m/c.wav", name := "c.wav", meta := .ok (some "AC") (some "LC") (some 100) }

/-- An unreadable file carrying a recognized audio extension: the
metadata read raises. -/
def fileBrokenMp3 : FsFile :=
  { path := "/m/broken.mp3", name := "broken.mp3", meta := .failure }

/-- An unreadable file without a recognized audio extension. -/
def fileBrokenDat : FsFile :=
  { path := "/m/broken.dat", name := "broken.dat", meta := .failure }

/-- A directory with 3 valid audio files and 1 unreadable audio file. -/
def demoFiles : List FsFile :=
  [fileA, fileB, fileC, fileBrokenMp3]

/-- A directory with 3 valid audio files and 1 unreadable non-audio file. -/
def demoFilesDat : List FsFile :=
  [fileA, fileB, fileC, fileBrokenDat]

lemma stop_current_playlist (tf : Bool) (s : PlayerState) :
    (stop tf s).current_playlist = s.current_playlist := by
  unfold stop; cases s.player_process <;> rfl

lemma stop_current_track_index (tf : Bool) (s : PlayerState) :
    (stop tf s).current_track_index = s.current_track_index := by
  unfold stop; cases s.player_process <;> rfl

lemma stop_player_process (tf : Bool) (s : PlayerState) :
    (stop tf s).player_process = none ∨ stop tf s = s := by
  unfold stop; cases s.player_process <;> simp

/-- `play` with no supplied tracks leaves the queue and the cursor
untouched in every branch. -/
lemma play_none_queue_cursor (sp : Option Nat) (tf : Bool) (s : PlayerState) :
    ((play none sp tf s).1).current_playlist = s.current_playlist ∧
      ((play none sp tf s).1).current_track_index = s.current_track_index := by
  unfold play
  simp only
  split
  · exact ⟨rfl, rfl⟩
  · cases h : (stop tf s).current_playlist.get? (stop tf s).current_track_index with
    | none => simp [h, stop_current_playlist, stop_current_track_index]
    | some t =>
        cases sp <;>
          simp [h, stop_current_playlist, stop_current_track_index]

/-- The controller's session invariant: the `is_playing` flag tracks
exactly whether a process handle is live, and `is_paused` implies
`is_playing`. -/
def SessionInv (s : PlayerState) : Prop :=
  (s.is_playing = true ↔ s.player_process.isSome = true) ∧
    (s.is_paused = true → s.is_playing = true)

lemma sessionInv_initState : SessionInv initState := by
  constructor <;> simp [initState]

lemma sessionInv_stop (tf : Bool) (s : PlayerState) (h : SessionInv s) :
    SessionInv (stop tf s) := by
  unfold stop
  cases s.player_process with
  | none => exact h
  | some p => constructor <;> simp

lemma sessionInv_play (tracks : Option (List Track)) (sp : Option Nat)
    (tf : Bool) (s : PlayerState) (h : SessionInv s) :
    SessionInv (play tracks sp tf s).1 := by
  unfold play
  simp only
  have h1 : SessionInv (match tracks with
      | some ts =>
          if ts.isEmpty then s
          else { s with current_playlist := ts, current_track_index := 0 }
      | none => s) := by
    cases tracks with
    | none => exact h
    | some ts =>
        by_cases hts : ts.isEmpty <;> simp [hts] <;> exact h
  set s1 := (match tracks with
      | some ts =>
          if ts.isEmpty then s
          else { s with current_playlist := ts, current_track_index := 0 }
      | none => s) with hs1
  split
  · exact h1
  · have h2 : SessionInv (stop tf s1) := sessionInv_stop tf s1 h1
    cases hg : (stop tf s1).current_playlist.get? (stop tf s1).current_track_index with
    | none => simpa [hg] using h2
    | some t =>
        cases sp with
        | none => simpa [hg] using h2
        | some pid =>
            simp only [hg]
            constructor
            · simp
            · intro hp
              rfl

lemma sessionInv_pause (s : PlayerState) (h : SessionInv s) :
    SessionInv (pause s) := by
  unfold pause
  cases hp : s.player_process with
  | none => exact h
  | some p =>
      constructor
      · simpa [hp] using h.1
      · intro _
        exact h.1.mpr (by simp [hp])

lemma sessionInv_resume (s : PlayerState) (h : SessionInv s) :
    SessionInv (resume s) := by
  unfold resume
  cases hp : s.player_process with
  | none => exact h
  | some p =>
      by_cases hps : s.is_paused
      · simp only [hps, if_true]
        constructor
        · simpa [hp] using h.1
        · intro hc; cases hc
      · simp only [hps, if_false]
        exact h

lemma sessionInv_next (sp : Option Nat) (tf : Bool) (s : PlayerState)
    (h : SessionInv s) : SessionInv (next_track sp tf s) := by
  unfold next_track
  split
  · exact h
  · exact sessionInv_play none sp tf _ ⟨h.1, h.2⟩

lemma sessionInv_prev (sp : Option Nat) (tf : Bool) (s : PlayerState)
    (h : SessionInv s) : SessionInv (previous_track sp tf s) := by
  unfold previous_track
  split
  · exact h
  · exact sessionInv_play none sp tf _ ⟨h.1, h.2⟩

lemma sessionInv_shuffle (l : List Track) (s : PlayerState)
    (h : SessionInv s) : SessionInv (shuffle_playlist l s) := by
  unfold shuffle_playlist
  split
  · exact h
  · exact ⟨h.1, h.2⟩

lemma sessionInv_applyOp (s : PlayerState) (op : Op) (h : SessionInv s) :
    SessionInv (applyOp s op) := by
  cases op with
  | playOp tracks sp tf => exact sessionInv_play tracks sp tf s h
  | pauseOp => exact sessionInv_pause s h
  | resumeOp => exact sessionInv_resume s h
  | stopOp tf => exact sessionInv_stop tf s h
  | nextOp sp tf => exact sessionInv_next sp tf s h
  | prevOp sp tf => exact sessionInv_prev sp tf s h
  | shuffleOp l => exact sessionInv_shuffle l s h

lemma sessionInv_run (s : PlayerState) (ops : List Op) (h : SessionInv s) :
    SessionInv (run s ops) := by
  induction ops generalizing s with
  | nil => exact h
  | cons op rest ih => exact ih (applyOp s op) (sessionInv_applyOp s op h)

/-- On any state satisfying the session invariant, `stop` ends with no
process handle and both flags cleared. -/
lemma stop_clears_of_inv (tf : Bool) (s : PlayerState) (h : SessionInv s) :
    (stop tf s).player_process = none ∧ (stop tf s).is_playing = false ∧
      (stop tf s).is_paused = false := by
  unfold stop
  cases hp : s.player_process with
  | some p => simp
  | none =>
      refine ⟨hp, ?_, ?_⟩
      · cases hpl : s.is_playing with
        | false => rfl
        | true => exact absurd (h.1.mp hpl) (by simp [hp])
      · cases hps : s.is_paused with
        | false => rfl
        | true =>
            have := h.1.mp (h.2 hps)
            simp [hp] at this

/-- `next_track` and `previous_track` keep the playlist itself. -/
lemma next_track_playlist (sp : Option Nat) (tf : Bool) (s : PlayerState) :
    (next_track sp tf s).current_playlist = s.current_playlist := by
  unfold next_track
  split
  · rfl
  · exact (play_none_queue_cursor sp tf _).1

lemma prev_track_playlist (sp : Option Nat) (tf : Bool) (s : PlayerState) :
    (previous_track sp tf s).current_playlist = s.current_playlist := by
  unfold previous_track
  split
  · rfl
  · exact (play_none_queue_cursor sp tf _).1

lemma next_track_cursor (sp : Option Nat) (tf : Bool) (s : PlayerState)
    (h : s.current_playlist.isEmpty = false) :
    (next_track sp tf s).current_track_index =
      (s.current_track_index + 1) % s.current_playlist.length := by
  unfold next_track
  simp only [h, Bool.false_eq_true, if_false]
  exact (play_none_queue_cursor sp tf _).2

/-- Bridge between Python's `%` on a possibly negative left operand
(`Int.emod` into `[0, N)`) and the `Nat` formula `(c + N - 1) % N`. -/
lemma int_pred_emod (c N : Nat) (h : 0 < N) :
    (((c : Int) - 1) % (N : Int)).toNat = (c + N - 1) % N := by
  have e : ((c + N - 1 : Nat) : Int) = (c : Int) - 1 + (N : Int) := by omega
  have e2 : ((c : Int) - 1) % (N : Int) = ((c + N - 1 : Nat) : Int) % (N : Int) := by
    rw [e]
    have h3 := Int.add_mul_emod_self_left ((c : Int) - 1) (N : Int) 1
    rw [mul_one] at h3
    exact h3.symm
  rw [e2,
    show ((c + N - 1 : Nat) : Int) % (N : Int) = (((c + N - 1) % N : Nat) : Int) by
      push_cast; ring]
  exact Int.toNat_natCast _

lemma prev_track_cursor (sp : Option Nat) (tf : Bool) (s : PlayerState)
    (h : s.current_playlist.isEmpty = false) :
    (previous_track sp tf s).current_track_index =
      (s.current_track_index + s.current_playlist.length - 1) %
        s.current_playlist.length := by
  unfold previous_track
  simp only [h, Bool.false_eq_true, if_false]
  rw [(play_none_queue_cursor sp tf _).2]
  have hlen : 0 < s.current_playlist.length := by
    cases hq : s.current_playlist with
    | nil => rw [hq] at h; simp at h
    | cons a l => simp [hq]
  exact int_pred_emod s.current_track_index s.current_playlist.length hlen

lemma ne_nil_isEmpty_false {α : Type} {l : List α} (h : l ≠ []) :
    l.isEmpty = false := by
  cases l with
  | nil => exact absurd rfl h
  | cons a t => rfl

/-- After `k` applications of `next_track`, the playlist is unchanged
and the cursor is `(c + k) % N`. -/
lemma next_iterate (sp : Option Nat) (tf : Bool) (s : PlayerState) (k : Nat)
    (hne : s.current_playlist.isEmpty = false)
    (hc : s.current_track_index < s.current_playlist.length) :
    ((next_track sp tf)^[k] s).current_playlist = s.current_playlist ∧
      ((next_track sp tf)^[k] s).current_track_index =
        (s.current_track_index + k) % s.current_playlist.length := by
  induction k with
  | zero => simpa using (Nat.mod_eq_of_lt hc).symm
  | succ k ih =>
      obtain ⟨hq, hcur⟩ := ih
      rw [Function.iterate_succ_apply']
      have hne' : ((next_track sp tf)^[k] s).current_playlist.isEmpty = false := by
        rw [hq]; exact hne
      refine ⟨by rw [next_track_playlist, hq], ?_⟩
      rw [next_track_cursor _ _ _ hne', hcur, hq, Nat.mod_add_mod,
        Nat.add_assoc]

/-- After `k` applications of `previous_track`, the playlist is
unchanged and the cursor is `(c + k * (N - 1)) % N`. -/
lemma prev_iterate (sp : Option Nat) (tf : Bool) (s : PlayerState) (k : Nat)
    (hne : s.current_playlist.isEmpty = false)
    (hc : s.current_track_index < s.current_playlist.length) :
    ((previous_track sp tf)^[k] s).current_playlist = s.current_playlist ∧
      ((previous_track sp tf)^[k] s).current_track_index =
        (s.current_track_index + k * (s.current_playlist.length - 1)) %
          s.current_playlist.length := by
  have hlen : 0 < s.current_playlist.length := by
    cases hq : s.current_playlist with
    | nil => rw [hq] at hne; simp at hne
    | cons a t => simp [hq]
  induction k with
  | zero => simpa using (Nat.mod_eq_of_lt hc).symm
  | succ k ih =>
      obtain ⟨hq, hcur⟩ := ih
      rw [Function.iterate_succ_apply']
      have hne' : ((previous_track sp tf)^[k] s).current_playlist.isEmpty = false := by
        rw [hq]; exact hne
      refine ⟨by rw [prev_track_playlist, hq], ?_⟩
      rw [prev_track_cursor _ _ _ hne', hcur, hq]
      have e1 : (s.current_track_index + k * (s.current_playlist.length - 1)) %
            s.current_playlist.length + s.current_playlist.length - 1 =
          (s.current_track_index + k * (s.current_playlist.length - 1)) %
            s.current_playlist.length + (s.current_playlist.length - 1) := by
        omega
      rw [e1, Nat.mod_add_mod]
      have e2 : s.current_track_index + k * (s.current_playlist.length - 1) +
            (s.current_playlist.length - 1) =
          s.current_track_index + (k + 1) * (s.current_playlist.length - 1) := by
        ring
      rw [e2]

/-- `play (some ts)` on a non-empty `ts` is `play` with no argument on
the state whose queue was replaced and cursor reset. -/
lemma play_some_nonempty (ts : List Track) (sp : Option Nat) (tf : Bool)
    (s : PlayerState) (hts : ts.isEmpty = false) :
    play (some ts) sp tf s =
      play none sp tf { s with current_playlist := ts, current_track_index := 0 } := by
  unfold play
  simp [hts]

/-- `play` with no supplied tracks on a non-empty queue never reports
the empty-queue condition. -/
lemma play_none_result_ne_empty (sp : Option Nat) (tf : Bool)
    (s : PlayerState) (hne : s.current_playlist.isEmpty = false) :
    (play none sp tf s).2 ≠ PlayResult.emptyQueue := by
  unfold play
  simp only [hne, Bool.false_eq_true, if_false]
  cases hg : (stop tf s).current_playlist.get? (stop tf s).current_track_index with
  | none => simp [hg]
  | some t => cases sp <;> simp [hg]

/-- `play` with no supplied tracks, in-range cursor, and a successful
spawn binds the process to the path of the track at the cursor and sets
`is_playing`. -/
lemma play_none_spawn_success (pid : Nat) (tf : Bool) (s : PlayerState)
    (hne : s.current_playlist.isEmpty = false)
    (hc : s.current_track_index < s.current_playlist.length) :
    ((play none (some pid) tf s).1).player_process =
        some (pid, (s.current_playlist.get ⟨s.current_track_index, hc⟩).path) ∧
      ((play none (some pid) tf s).1).is_playing = true := by
  unfold play
  simp only [hne, Bool.false_eq_true, if_false]
  have hget : (stop tf s).current_playlist[(stop tf s).current_track_index]? =
      some (s.current_playlist.get ⟨s.current_track_index, hc⟩) := by
    rw [stop_current_playlist, stop_current_track_index,
      List.getElem?_eq_getElem hc]
    simp [List.get_eq_getElem]
  simp [hget]

/-- A concrete one-track controller state. -/
def sOneTrack : PlayerState :=
  { current_playlist := [trackA]
    current_track_index := 0
    is_playing := false
    is_paused := false
    player_process := none }

/-- Claim C1, counterexample: on a controller whose queue is `[trackA]`,
calling `play` with the supplied (empty) track list does not replace the
queue wholesale with that list — the old queue survives. -/
theorem play_empty_list_keeps_queue_cex :
    ((play (some []) (some 1) false sOneTrack).1).current_playlist = [trackA] ∧
      ((play (some []) (some 1) false sOneTrack).1).current_playlist ≠ [] := by
  constructor <;> decide

/-- Claim C1 (amended): `play(tracks)` replaces the queue wholesale and
resets the cursor to 0 only when the supplied list is non-empty; and on
an empty resulting queue (no replacement happened and the existing
queue is empty) it reports the empty-queue condition, spawns nothing,
and leaves the state unchanged. -/
theorem play_replace_nonempty_amended (s : PlayerState) (ts : List Track)
    (sp : Option Nat) (tf : Bool) (hts : ts ≠ []) :
    ((play (some ts) sp tf s).1).current_playlist = ts ∧
      ((play (some ts) sp tf s).1).current_track_index = 0 ∧
      (∀ s' : PlayerState,
        play none sp tf { s' with current_playlist := [] } =
          ({ s' with current_playlist := [] }, PlayResult.emptyQueue)) ∧
      (∀ s' : PlayerState,
        play (some []) sp tf { s' with current_playlist := [] } =
          ({ s' with current_playlist := [] }, PlayResult.emptyQueue)) := by
  rw [play_some_nonempty ts sp tf s (ne_nil_isEmpty_false hts)]
  exact ⟨(play_none_queue_cursor sp tf _).1,
    (play_none_queue_cursor sp tf _).2,
    fun s' => rfl, fun s' => rfl⟩

/-- Witness for the amended claim C1 at a concrete state and list. -/
theorem play_replace_nonempty_amended_witness :
    ([trackB, trackC] : List Track) ≠ [] ∧
      ((play (some [trackB, trackC]) (some 5) false sOneTrack).1).current_playlist =
        [trackB, trackC] :=
  ⟨by decide,
    (play_replace_nonempty_amended sOneTrack [trackB, trackC] (some 5) false
      (by decide)).1⟩

/-- Claim C3: in every state reachable from the initial controller state
by any sequence of play/pause/resume/stop/next/previous/shuffle
operations, `is_paused = true` implies `is_playing = true`. -/
theorem paused_implies_playing_reachable (ops : List Op)
    (h : (run initState ops).is_paused = true) :
    (run initState ops).is_playing = true :=
  (sessionInv_run initState ops sessionInv_initState).2 h

/-- A concrete operation sequence that ends paused. -/
def opsPaused : List Op :=
  [.playOp (some [trackA]) (some 1) false, .pauseOp]

/-- Witness for claim C3 on a concrete reachable paused state. -/
theorem paused_implies_playing_reachable_witness :
    (run initState opsPaused).is_paused = true ∧
      (run initState opsPaused).is_playing = true :=
  ⟨by decide, paused_implies_playing_reachable opsPaused (by decide)⟩

/-- Claim C7: on every reachable state, `stop` ends with no live session
and both flags cleared; its result does not depend on whether
terminating the process failed (the failure is swallowed); it is
idempotent on every state; and it is a no-op on a state with no process
handle. -/
theorem stop_unconditional_idempotent (ops : List Op) (s : PlayerState)
    (tf tf' : Bool) :
    (stop tf (run initState ops)).player_process = none ∧
      (stop tf (run initState ops)).is_playing = false ∧
      (stop tf (run initState ops)).is_paused = false ∧
      stop tf s = stop tf' s ∧
      stop tf' (stop tf s) = stop tf s ∧
      stop tf { s with player_process := none } = { s with player_process := none } := by
  obtain ⟨h1, h2, h3⟩ := stop_clears_of_inv tf (run initState ops)
    (sessionInv_run initState ops sessionInv_initState)
  refine ⟨h1, h2, h3, ?_, ?_, rfl⟩
  · unfold stop; cases s.player_process <;> rfl
  · cases hp : s.player_process with
    | none =>
        have e : stop tf s = s := by unfold stop; rw [hp]
        rw [e]
        unfold stop; rw [hp]
    | some p =>
        have e : stop tf s =
            { s with player_process := none, is_playing := false, is_paused := false } := by
          unfold stop; rw [hp]
        rw [e]
        rfl

/-- Claim C6: on a non-empty queue with an in-range cursor, `next`
repeated `N` times and `previous` repeated `N` times each return the
cursor to its starting value; a single `next` advances the cursor by 1
modulo `N`, a single `previous` decrements it by 1 modulo `N` (wrapping
to the last index at 0); both are no-ops on an empty queue. -/
theorem next_prev_wraparound (s : PlayerState) (sp : Option Nat) (tf : Bool)
    (hne : s.current_playlist ≠ [])
    (hc : s.current_track_index < s.current_playlist.length) :
    ((next_track sp tf)^[s.current_playlist.length] s).current_track_index =
        s.current_track_index ∧
      ((previous_track sp tf)^[s.current_playlist.length] s).current_track_index =
        s.current_track_index ∧
      (next_track sp tf s).current_track_index =
        (s.current_track_index + 1) % s.current_playlist.length ∧
      (previous_track sp tf s).current_track_index =
        (s.current_track_index + s.current_playlist.length - 1) %
          s.current_playlist.length ∧
      (∀ s' : PlayerState,
        next_track sp tf { s' with current_playlist := [] } =
          { s' with current_playlist := [] }) ∧
      (∀ s' : PlayerState,
        previous_track sp tf { s' with current_playlist := [] } =
          { s' with current_playlist := [] }) := by
  have hne' := ne_nil_isEmpty_false hne
  refine ⟨?_, ?_, next_track_cursor sp tf s hne', prev_track_cursor sp tf s hne',
    fun s' => rfl, fun s' => rfl⟩
  · rw [(next_iterate sp tf s s.current_playlist.length hne' hc).2,
      Nat.add_mod_right]
    exact Nat.mod_eq_of_lt hc
  · rw [(prev_iterate sp tf s s.current_playlist.length hne' hc).2,
      Nat.add_mul_mod_self_left]
    exact Nat.mod_eq_of_lt hc

/-- A concrete three-track state with the cursor at 1. -/
def sThree : PlayerState :=
  { current_playlist := [trackA, trackB, trackC]
    current_track_index := 1
    is_playing := true
    is_paused := false
    player_process := some (7, "/m/b.ogg") }

/-- Witness for claim C6 at a concrete three-track state. -/
theorem next_prev_wraparound_witness :
    sThree.current_playlist ≠ [] ∧
      sThree.current_track_index < sThree.current_playlist.length ∧
      ((next_track (some 9) false)^[sThree.current_playlist.length] sThree).current_track_index =
        sThree.current_track_index :=
  ⟨by decide, by decide,
    (next_prev_wraparound sThree (some 9) false (by decide) (by decide)).1⟩

/-- Claim C9: `shuffle` is a no-op on an empty queue; on any queue it
replaces the queue with the permutation the RNG produced while leaving
the cursor, the session handle, and both flags unchanged. -/
theorem shuffle_permutes_frame (s : PlayerState) (shuffled : List Track)
    (hperm : shuffled.Perm s.current_playlist) :
    (shuffle_playlist shuffled s).current_playlist.Perm s.current_playlist ∧
      (shuffle_playlist shuffled s).current_track_index = s.current_track_index ∧
      (shuffle_playlist shuffled s).player_process = s.player_process ∧
      (shuffle_playlist shuffled s).is_playing = s.is_playing ∧
      (shuffle_playlist shuffled s).is_paused = s.is_paused ∧
      (∀ s' : PlayerState,
        shuffle_playlist shuffled { s' with current_playlist := [] } =
          { s' with current_playlist := [] }) := by
  by_cases hq : s.current_playlist.isEmpty <;>
    simp [shuffle_playlist, hq, hperm, List.Perm.refl]

/-- A concrete playing two-track state. -/
def sTwo : PlayerState :=
  { current_playlist := [trackA, trackB]
    current_track_index := 0
    is_playing := true
    is_paused := false
    player_process := some (4, "/m/a.mp3") }

/-- Witness for claim C9 with a concrete transposition of the queue. -/
theorem shuffle_permutes_frame_witness :
    List.Perm [trackB, trackA] sTwo.current_playlist ∧
      (shuffle_playlist [trackB, trackA] sTwo).current_track_index =
        sTwo.current_track_index :=
  ⟨by decide, (shuffle_permutes_frame sTwo [trackB, trackA] (by decide)).2.1⟩

/-- Claim C10: `play` with an empty supplied list is indistinguishable
from `play` with no argument; on a non-empty existing queue it keeps the
queue and the cursor, does not report the empty-queue condition, and on
a successful spawn restarts playback of the track at the current
cursor. -/
theorem play_empty_equals_play_none (s : PlayerState) (sp : Option Nat)
    (tf : Bool) (pid : Nat) (hne : s.current_playlist ≠ [])
    (hc : s.current_track_index < s.current_playlist.length) :
    play (some []) sp tf s = play none sp tf s ∧
      ((play (some []) sp tf s).1).current_playlist = s.current_playlist ∧
      ((play (some []) sp tf s).1).current_track_index = s.current_track_index ∧
      (play (some []) sp tf s).2 ≠ PlayResult.emptyQueue ∧
      ((play (some []) (some pid) tf s).1).player_process =
        some (pid, (s.current_playlist.get ⟨s.current_track_index, hc⟩).path) ∧
      ((play (some []) (some pid) tf s).1).is_playing = true := by
  have hne' := ne_nil_isEmpty_false hne
  have heq : ∀ sp' : Option Nat, play (some []) sp' tf s = play none sp' tf s :=
    fun sp' => rfl
  rw [heq sp, heq pid]
  exact ⟨rfl, (play_none_queue_cursor sp tf s).1, (play_none_queue_cursor sp tf s).2,
    play_none_result_ne_empty sp tf s hne',
    (play_none_spawn_success pid tf s hne' hc).1,
    (play_none_spawn_success pid tf s hne' hc).2⟩

/-- Witness for claim C10 at the concrete one-track state. -/
theorem play_empty_equals_play_none_witness :
    sOneTrack.current_playlist ≠ [] ∧
      sOneTrack.current_track_index < sOneTrack.current_playlist.length ∧
      play (some []) (some 3) false sOneTrack = play none (some 3) false sOneTrack :=
  ⟨by decide, by decide,
    (play_empty_equals_play_none sOneTrack (some 3) false 3 (by decide)
      (by decide)).1⟩

/-- The duplicate check of `scan_music_library`
(`SELECT id FROM tracks WHERE path = ?`) succeeds exactly when the path
is among the cataloged paths. -/
lemma path_mem_any (cat : Catalog) (p : String) :
    cat.tracks.any (fun t => t.path == p) = true ↔ p ∈ catPaths cat := by
  simp only [List.any_eq_true, beq_iff_eq, catPaths, List.mem_map]

/-- One scan step never removes a cataloged path. -/
lemma scanStep_mono (cat : Catalog) (n : Nat) (f : FsFile) (p : String)
    (h : p ∈ catPaths cat) : p ∈ catPaths (scanStep (cat, n) f).1 := by
  unfold scanStep
  simp only
  split
  · split
    · exact h
    · simp only [catPaths, List.map_append, List.mem_append]
      exact Or.inl h
  · exact h

/-- One scan step preserves uniqueness of paths. -/
lemma scanStep_nodup (cat : Catalog) (n : Nat) (f : FsFile)
    (h : (catPaths cat).Nodup) : (catPaths (scanStep (cat, n) f).1).Nodup := by
  unfold scanStep
  simp only
  split
  · split
    · exact h
    · rename_i hany
      have hnotin : f.path ∉ catPaths cat := fun hmem =>
        hany ((path_mem_any cat f.path).mpr hmem)
      simp only [catPaths, List.map_append, List.map_cons, List.map_nil]
      rw [List.nodup_append]
      refine ⟨h, List.nodup_singleton _, fun a ha hb => ?_⟩
      rw [List.mem_singleton] at hb
      subst hb
      exact hnotin ha
  · exact h

/-- After a scan step on a file with a recognized extension, its path is
cataloged. -/
lemma scanStep_adds_path (cat : Catalog) (n : Nat) (f : FsFile)
    (hs : hasSupportedExt f.name = true) :
    f.path ∈ catPaths (scanStep (cat, n) f).1 := by
  unfold scanStep
  simp only [hs, if_true]
  split
  · rename_i hany
    exact (path_mem_any cat f.path).mp hany
  · simp [catPaths]

/-- A whole scan never removes a cataloged path. -/
lemma scan_mono (files : List FsFile) (acc : Catalog × Nat) (p : String)
    (h : p ∈ catPaths acc.1) : p ∈ catPaths (files.foldl scanStep acc).1 := by
  induction files generalizing acc with
  | nil => exact h
  | cons f fs ih => exact ih (scanStep acc f) (scanStep_mono acc.1 acc.2 f p h)

/-- A whole scan preserves uniqueness of paths. -/
lemma scan_nodup (files : List FsFile) (acc : Catalog × Nat)
    (h : (catPaths acc.1).Nodup) :
    (catPaths (files.foldl scanStep acc).1).Nodup := by
  induction files generalizing acc with
  | nil => exact h
  | cons f fs ih => exact ih (scanStep acc f) (scanStep_nodup acc.1 acc.2 f h)

/-- After a scan, every walked file with a recognized extension has its
path in the catalog. -/
lemma scan_contains (files : List FsFile) :
    ∀ (acc : Catalog × Nat) (f : FsFile), f ∈ files →
      hasSupportedExt f.name = true →
      f.path ∈ catPaths (files.foldl scanStep acc).1 := by
  induction files with
  | nil => intro acc f hf; cases hf
  | cons g fs ih =>
      intro acc f hf hs
      rcases List.mem_cons.mp hf with hfg | hmem
      · subst hfg
        exact scan_mono fs (scanStep acc f) f.path
          (scanStep_adds_path acc.1 acc.2 f hs)
      · exact ih (scanStep acc g) f hmem hs

/-- A scan over files whose recognized paths are all already cataloged
changes nothing and adds nothing. -/
lemma scan_noop (files : List FsFile) (cat : Catalog) (n : Nat)
    (h : ∀ f ∈ files, hasSupportedExt f.name = true → f.path ∈ catPaths cat) :
    files.foldl scanStep (cat, n) = (cat, n) := by
  induction files with
  | nil => rfl
  | cons f fs ih =>
      have hstep : scanStep (cat, n) f = (cat, n) := by
        unfold scanStep
        simp only
        by_cases hs : hasSupportedExt f.name
        · have hany : cat.tracks.any (fun t => t.path == f.path) = true :=
            (path_mem_any cat f.path).mpr (h f (List.mem_cons_self f fs) hs)
          simp [hs, hany]
        · simp [hs]
      rw [List.foldl_cons, hstep]
      exact ih fun g hg => h g (List.mem_cons_of_mem f hg)

/-- Claim C2: scanning preserves global uniqueness of `Track.path`, and
a second scan over the same unchanged directory inserts nothing: its
inserted-count is 0 and the catalog is unchanged. -/
theorem scan_idempotent_unique_paths (files : List FsFile) (cat : Catalog)
    (h : (catPaths cat).Nodup) :
    (catPaths (scan_music_library files cat).1).Nodup ∧
      (scan_music_library files (scan_music_library files cat).1).2 = 0 ∧
      (scan_music_library files (scan_music_library files cat).1).1 =
        (scan_music_library files cat).1 := by
  have hnoop : scan_music_library files (scan_music_library files cat).1 =
      ((scan_music_library files cat).1, 0) :=
    scan_noop files (scan_music_library files cat).1 0
      (fun f hf hs => scan_contains files (cat, 0) f hf hs)
  exact ⟨scan_nodup files (cat, 0) h, by rw [hnoop], by rw [hnoop]⟩

/-- Witness for claim C2 on the concrete demo directory over the fresh
catalog. -/
theorem scan_idempotent_unique_paths_witness :
    (catPaths emptyCatalog).Nodup ∧
      (scan_music_library demoFiles
        (scan_music_library demoFiles emptyCatalog).1).2 = 0 :=
  ⟨by decide,
    (scan_idempotent_unique_paths demoFiles emptyCatalog (by decide)).2.1⟩

/-- Claim C5, counterexample: a directory with 3 valid audio files and
1 unreadable audio file reports 4 tracks added, not 3 — the unreadable
file is inserted with default metadata rather than skipped. -/
theorem scan_unreadable_counted_cex :
    (scan_music_library demoFiles emptyCatalog).2 = 4 ∧
      (scan_music_library demoFiles emptyCatalog).2 ≠ 3 := by
  constructor <;> decide

/-- Claim C5 (amended): a scan never aborts on an unreadable file; an
unreadable file with a recognized audio extension is not skipped but
inserted with the default metadata, so a directory with 3 valid audio
files and 1 unreadable audio file over an empty catalog reports 4
tracks added, and the query with limit 20 returns exactly those 4; only
a file without a recognized extension is skipped, in which case the
count is 3 and the query returns the 3 valid tracks. -/
theorem scan_never_aborts_amended :
    (scan_music_library demoFiles emptyCatalog).2 = 4 ∧
      get_tracks 20 0 none (scan_music_library demoFiles emptyCatalog).1 =
        [(1, "/m/a.mp3", "a.mp3", "AA", "LA"),
         (2, "/m/b.ogg", "b.ogg", "AB", "LB"),
         (3, "/m/c.wav", "c.wav", "AC", "LC"),
         (4, "/m/broken.mp3", "broken.mp3", "Unknown Artist", "Unknown Album")] ∧
      (scan_music_library demoFilesDat emptyCatalog).2 = 3 ∧
      get_tracks 20 0 none (scan_music_library demoFilesDat emptyCatalog).1 =
        [(1, "/m/a.mp3", "a.mp3", "AA", "LA"),
         (2, "/m/b.ogg", "b.ogg", "AB", "LB"),
         (3, "/m/c.wav", "c.wav", "AC", "LC")] := by
  refine ⟨by decide, by decide, by decide, by decide⟩

/-- Claim C8: a file whose metadata read fails is still inserted and
counted, carrying exactly the default triple
`("Unknown Artist", "Unknown Album", 0)`; the extraction itself is a
total function of the read outcome (it never raises past the scan). -/
theorem scan_metadata_default_triple (cat : Catalog) (n : Nat) (f : FsFile)
    (h1 : hasSupportedExt f.name = true) (h2 : f.meta = .failure)
    (h3 : cat.tracks.any (fun t => t.path == f.path) = false) :
    extractMeta MetaResult.failure = ("Unknown Artist", "Unknown Album", 0) ∧
      scanStep (cat, n) f =
        ({ cat with
            tracks := cat.tracks ++
              [{ id := cat.nextTrackId, path := f.path, filename := f.name
                 artist := "Unknown Artist", album := "Unknown Album"
                 duration := 0 }]
            nextTrackId := cat.nextTrackId + 1 }, n + 1) := by
  refine ⟨rfl, ?_⟩
  unfold scanStep
  simp [h1, h3, h2, extractMeta]

/-- Witness for claim C8 on the concrete unreadable audio file over the
fresh catalog. -/
theorem scan_metadata_default_triple_witness :
    hasSupportedExt fileBrokenMp3.name = true ∧
      fileBrokenMp3.meta = MetaResult.failure ∧
      emptyCatalog.tracks.any (fun t => t.path == fileBrokenMp3.path) = false ∧
      (scanStep (emptyCatalog, 0) fileBrokenMp3).2 = 1 :=
  ⟨by decide, by decide, by decide,
    by rw [(scan_metadata_default_triple emptyCatalog 0 fileBrokenMp3
        (by decide) (by decide) (by decide)).2]⟩

/-- Claim C4: evaluation of `create_playlist` at the failing input. The
schema declares `FOREIGN KEY(track_id) REFERENCES tracks(id)` but the
connection never runs `PRAGMA foreign_keys = ON`, so a track id absent
from the catalog (999 over an empty `tracks` table) is associated
silently instead of raising; the duplicate-name half of the claim does
hold: a second `create_playlist` with the same name raises the UNIQUE
integrity error, leaves the database unchanged, and exactly one playlist
with that name exists. -/
theorem create_playlist_unknown_id_silent :
    ((create_playlist "Favorites" [999] emptyCatalog).2 =
        CreatePlaylistResult.ok 1) ∧
      ((create_playlist "Favorites" [999] emptyCatalog).1.playlist_tracks =
        [(1, 999)]) ∧
      (emptyCatalog.tracks = []) ∧
      ((create_playlist "Favorites" [1, 2]
          (create_playlist "Favorites" [999] emptyCatalog).1).2 =
        CreatePlaylistResult.integrityError) ∧
      ((create_playlist "Favorites" [1, 2]
          (create_playlist "Favorites" [999] emptyCatalog).1).1 =
        (create_playlist "Favorites" [999] emptyCatalog).1) ∧
      (((create_playlist "Favorites" [999] emptyCatalog).1.playlists.filter
          (fun p => p.2 == "Favorites")).length = 1) := by
  refine ⟨?_, ?_, ?_, ?_, ?_, ?_⟩ <;> decide
